import Mathlib

/-!
Shallow embedding of the scival-llm-data-layer query/boundary code.

Sources embedded:
- `src/types.ts` : entity shapes (author / institution / journal), trend points.
- `src/data/mockData.ts` : the fixed in-memory dataset.
- `src/queries.ts` : the six query functions and the function registry.
- `src/index.ts` : single/batch invocation handlers and the zod-to-JSON-schema
  renderer.

Modelling conventions:
- JavaScript numbers are modelled as exact rationals (`ℚ`); every numeric value
  in the dataset is an exact decimal, and no operation in the code produces a
  rounding-sensitive branch.  `NaN` (which arises when the code subtracts
  non-number metric values) is modelled explicitly by `JsNum.nan`.
- `undefined`-able lookups are `Option`.
- JS objects with known string keys are association lists in declaration order.
- `Array.prototype.sort` with a comparator is stable (ES2019); it is embedded
  as a stable insertion sort, and the comparator result is passed through
  ES SortCompare, which maps a `NaN` comparator result to `0`.
- `Array.prototype.slice(0, end)` truncates `end` toward zero and counts from
  the end of the array when negative; embedded by `jsSliceEnd`.
- The dataset is a parameter (`Dataset`) so that properties can be stated for
  the query semantics over any dataset; `scivalData` is the fixture from
  `mockData.ts` and the source-named functions are specialized to it.
-/

/-- A JSON value (the wire format of the HTTP boundary). -/
inductive Json where
  | null : Json
  | bool (b : Bool) : Json
  | num (q : ℚ) : Json
  | str (s : String) : Json
  | arr (elems : List Json) : Json
  | obj (fields : List (String × Json)) : Json

/-- A metric value as stored in the dataset: either a number or (for the
author metric `outputsInTopCitationPercentiles`) a one-level nested object of
three numbers. -/
inductive MetricValue where
  | num (q : ℚ) : MetricValue
  | obj (top1 top5 top10 : ℚ) : MetricValue
deriving DecidableEq

/-- Result of JS arithmetic on metric values: a number or `NaN`. -/
inductive JsNum where
  | nan : JsNum
  | num (q : ℚ) : JsNum
deriving DecidableEq

/-- JS subtraction `a - b` of two metric values: an object operand yields
`NaN` (a plain object coerces to `NaN`). -/
def jsSub : MetricValue → MetricValue → JsNum
  | MetricValue.num a, MetricValue.num b => JsNum.num (a - b)
  | _, _ => JsNum.nan

/-- JS division of an intermediate result by a metric value.  In
`compareEntities` the denominator `0` case is unreachable (guarded by
`valueB !== 0`); an object denominator coerces to `NaN`. -/
def jsDiv : JsNum → MetricValue → JsNum
  | JsNum.num a, MetricValue.num b => if b = 0 then JsNum.nan else JsNum.num (a / b)
  | _, _ => JsNum.nan

/-- JS multiplication of an intermediate result by a number literal. -/
def jsMul : JsNum → ℚ → JsNum
  | JsNum.num a, c => JsNum.num (a * c)
  | JsNum.nan, _ => JsNum.nan

/-- JS negation. -/
def jsNeg : JsNum → JsNum
  | JsNum.nan => JsNum.nan
  | JsNum.num a => JsNum.num (-a)

/-- The `entityType` enum from the schemas. -/
inductive EntityType where
  | author : EntityType
  | institution : EntityType
  | journal : EntityType
deriving DecidableEq

/-- Variant-specific fields of the three entity kinds (`src/types.ts`). -/
inductive EntityExtra where
  | author (affiliation : Option String) : EntityExtra
  | institution (country : String) : EntityExtra
  | journal (publisher : String) : EntityExtra
deriving DecidableEq

/-- An entity record: common shape of `Author`, `Institution`, `Journal`.
`metrics` is the metrics object as an association list in declaration order. -/
structure Entity where
  id : String
  name : String
  extra : EntityExtra
  metrics : List (String × MetricValue)
deriving DecidableEq

/-- A trend data point (`{year, value}`). -/
structure TrendPoint where
  year : ℚ
  value : ℚ
deriving DecidableEq

/-- One side of a comparison result. -/
structure ComparisonSide where
  id : String
  name : String
  value : MetricValue
deriving DecidableEq

/-- The `Comparison` result of `compareEntities`. -/
structure Comparison where
  entityA : ComparisonSide
  entityB : ComparisonSide
  difference : JsNum
  percentDifference : JsNum
deriving DecidableEq

/-- The in-memory dataset: the three entity collections plus the trend-series
mapping. -/
structure Dataset where
  authors : List Entity
  institutions : List Entity
  journals : List Entity
  trends : List (String × List TrendPoint)

/-- The `mockAuthors` from `src/data/mockData.ts`. -/
def mockAuthors : List Entity :=
  [ { id := "auth_001", name := "Dr. Sarah Chen",
      extra := EntityExtra.author (some "MIT"),
      metrics := [("publications", MetricValue.num 156),
                  ("citations", MetricValue.num 4823),
                  ("hIndex", MetricValue.num 42),
                  ("fieldWeightedCitationImpact", MetricValue.num 2.34),
                  ("outputsInTopCitationPercentiles", MetricValue.obj 12 28 45)] },
    { id := "auth_002", name := "Prof. James Anderson",
      extra := EntityExtra.author (some "Stanford University"),
      metrics := [("publications", MetricValue.num 203),
                  ("citations", MetricValue.num 8912),
                  ("hIndex", MetricValue.num 58),
                  ("fieldWeightedCitationImpact", MetricValue.num 3.12),
                  ("outputsInTopCitationPercentiles", MetricValue.obj 18 42 67)] },
    { id := "auth_003", name := "Dr. Maria Rodriguez",
      extra := EntityExtra.author (some "Cambridge University"),
      metrics := [("publications", MetricValue.num 89),
                  ("citations", MetricValue.num 2134),
                  ("hIndex", MetricValue.num 31),
                  ("fieldWeightedCitationImpact", MetricValue.num 1.87),
                  ("outputsInTopCitationPercentiles", MetricValue.obj 5 15 23)] } ]

/-- The `mockInstitutions` from `src/data/mockData.ts`. -/
def mockInstitutions : List Entity :=
  [ { id := "inst_001", name := "Massachusetts Institute of Technology",
      extra := EntityExtra.institution "United States",
      metrics := [("publications", MetricValue.num 12456),
                  ("citations", MetricValue.num 342891),
                  ("collaborationRate", MetricValue.num 0.68),
                  ("fieldWeightedCitationImpact", MetricValue.num 2.89),
                  ("academicCorporateCollaboration", MetricValue.num 0.23)] },
    { id := "inst_002", name := "University of Oxford",
      extra := EntityExtra.institution "United Kingdom",
      metrics := [("publications", MetricValue.num 15234),
                  ("citations", MetricValue.num 412567),
                  ("collaborationRate", MetricValue.num 0.72),
                  ("fieldWeightedCitationImpact", MetricValue.num 3.12),
                  ("academicCorporateCollaboration", MetricValue.num 0.18)] },
    { id := "inst_003", name := "ETH Zurich",
      extra := EntityExtra.institution "Switzerland",
      metrics := [("publications", MetricValue.num 8923),
                  ("citations", MetricValue.num 198234),
                  ("collaborationRate", MetricValue.num 0.65),
                  ("fieldWeightedCitationImpact", MetricValue.num 2.56),
                  ("academicCorporateCollaboration", MetricValue.num 0.31)] } ]

/-- The `mockJournals` from `src/data/mockData.ts`. -/
def mockJournals : List Entity :=
  [ { id := "jour_001", name := "Nature",
      extra := EntityExtra.journal "Springer Nature",
      metrics := [("citesPerDoc", MetricValue.num 42.3),
                  ("sjr", MetricValue.num 14.23),
                  ("snip", MetricValue.num 8.92),
                  ("percentCited", MetricValue.num 94.2)] },
    { id := "jour_002", name := "Science",
      extra := EntityExtra.journal "AAAS",
      metrics := [("citesPerDoc", MetricValue.num 38.7),
                  ("sjr", MetricValue.num 13.45),
                  ("snip", MetricValue.num 7.81),
                  ("percentCited", MetricValue.num 92.8)] },
    { id := "jour_003", name := "Cell",
      extra := EntityExtra.journal "Elsevier",
      metrics := [("citesPerDoc", MetricValue.num 35.2),
                  ("sjr", MetricValue.num 12.89),
                  ("snip", MetricValue.num 7.23),
                  ("percentCited", MetricValue.num 91.5)] } ]

/-- The `mockTrends` from `src/data/mockData.ts`. -/
def mockTrends : List (String × List TrendPoint) :=
  [ ("auth_001", [⟨2019, 12⟩, ⟨2020, 15⟩, ⟨2021, 18⟩, ⟨2022, 22⟩, ⟨2023, 19⟩]),
    ("inst_001", [⟨2019, 11234⟩, ⟨2020, 11892⟩, ⟨2021, 12156⟩, ⟨2022, 12389⟩, ⟨2023, 12456⟩]),
    ("jour_001", [⟨2019, 892⟩, ⟨2020, 923⟩, ⟨2021, 945⟩, ⟨2022, 978⟩, ⟨2023, 1012⟩]) ]

/-- The fixture dataset the repository runs on. -/
def scivalData : Dataset :=
  { authors := mockAuthors, institutions := mockInstitutions,
    journals := mockJournals, trends := mockTrends }

/-- The collection selected by an `entityType`. -/
def collOf (d : Dataset) : EntityType → List Entity
  | EntityType.author => d.authors
  | EntityType.institution => d.institutions
  | EntityType.journal => d.journals

/-- The `getEntity` (`src/queries.ts`): exact-match `find` by id in the collection
selected by `entityType`, `null` when absent. -/
def getEntityOn (d : Dataset) (entityType : EntityType) (entityId : String) : Option Entity :=
  match entityType with
  | EntityType.author => d.authors.find? (fun a => a.id == entityId)
  | EntityType.institution => d.institutions.find? (fun i => i.id == entityId)
  | EntityType.journal => d.journals.find? (fun j => j.id == entityId)

/-- The `getEntity` bound to the fixture dataset. -/
def getEntity (entityType : EntityType) (entityId : String) : Option Entity :=
  getEntityOn scivalData entityType entityId

/-- The `String.prototype.toLowerCase` (the dataset and queries are ASCII). -/
def lowerStr (s : String) : String := String.mk (s.data.map Char.toLower)

/-- ES `end` index truncation toward zero (ToIntegerOrInfinity). -/
def jsTrunc (q : ℚ) : ℤ := if 0 ≤ q then Int.floor q else Int.ceil q

/-- The `Array.prototype.slice(0, end)`: a negative `end` counts from the end of
the array, the result is clamped to the array bounds. -/
def jsSliceEnd (limit : ℚ) (l : List α) : List α :=
  if jsTrunc limit < 0 then l.take (((l.length : ℤ) + jsTrunc limit).toNat)
  else l.take (jsTrunc limit).toNat

/-- The `searchEntities` (`src/queries.ts`): case-insensitive substring filter of
`query` against `name` over the selected collection, then `slice(0, limit)`. -/
def searchEntitiesOn (d : Dataset) (entityType : EntityType) (query : String) (limit : ℚ) :
    List Entity :=
  let queryLower := lowerStr query
  let results := match entityType with
    | EntityType.author => d.authors.filter (fun a => decide (queryLower.data <:+: (lowerStr a.name).data))
    | EntityType.institution => d.institutions.filter (fun i => decide (queryLower.data <:+: (lowerStr i.name).data))
    | EntityType.journal => d.journals.filter (fun j => decide (queryLower.data <:+: (lowerStr j.name).data))
  jsSliceEnd limit results

/-- The `searchEntities` bound to the fixture dataset. -/
def searchEntities (entityType : EntityType) (query : String) (limit : ℚ) : List Entity :=
  searchEntitiesOn scivalData entityType query limit

/-- The `getMetrics` (`src/queries.ts`): delegates to `getEntity` and returns the
full metrics object; the `metricNames` parameter is destructured away. -/
def getMetricsOn (d : Dataset) (entityType : EntityType) (entityId : String)
    (metricNames : Option (List String)) : Option (List (String × MetricValue)) :=
  match getEntityOn d entityType entityId with
  | none => none
  | some entity => some entity.metrics

/-- The `getMetrics` bound to the fixture dataset. -/
def getMetrics (entityType : EntityType) (entityId : String)
    (metricNames : Option (List String)) : Option (List (String × MetricValue)) :=
  getMetricsOn scivalData entityType entityId metricNames

/-- The `compareEntities` (`src/queries.ts`). -/
def compareEntitiesOn (d : Dataset) (entityType : EntityType)
    (entityIdA entityIdB metric : String) : Option Comparison :=
  match getEntityOn d entityType entityIdA, getEntityOn d entityType entityIdB with
  | some entityA, some entityB =>
    match List.lookup metric entityA.metrics, List.lookup metric entityB.metrics with
    | some valueA, some valueB =>
      some { entityA := ⟨entityA.id, entityA.name, valueA⟩,
             entityB := ⟨entityB.id, entityB.name, valueB⟩,
             difference := jsSub valueA valueB,
             percentDifference :=
               if valueB ≠ MetricValue.num 0
               then jsMul (jsDiv (jsSub valueA valueB) valueB) 100
               else JsNum.num 0 }
    | _, _ => none
  | _, _ => none

/-- The `compareEntities` bound to the fixture dataset. -/
def compareEntities (entityType : EntityType) (entityIdA entityIdB metric : String) :
    Option Comparison :=
  compareEntitiesOn scivalData entityType entityIdA entityIdB metric

/-- The `getTrend` (`src/queries.ts`).  Note the JS truthiness tests
`if (startYear)` / `if (endYear)`: a bound that is absent OR equal to `0` is
not applied.  The `metric` parameter is accepted but destructured away. -/
def getTrendOn (d : Dataset) (entityId metric : String)
    (startYear endYear : Option ℚ) : Option (List TrendPoint) :=
  match List.lookup entityId d.trends with
  | none => none
  | some trendData =>
    let f1 := match startYear with
      | some s => if s ≠ 0 then trendData.filter (fun p => decide (s ≤ p.year)) else trendData
      | none => trendData
    let f2 := match endYear with
      | some e => if e ≠ 0 then f1.filter (fun p => decide (p.year ≤ e)) else f1
      | none => f1
    some f2

/-- The `getTrend` bound to the fixture dataset. -/
def getTrend (entityId metric : String) (startYear endYear : Option ℚ) :
    Option (List TrendPoint) :=
  getTrendOn scivalData entityId metric startYear endYear

/-- The sort key `metrics[metric] || 0` of `getTopEntities`: a missing key or
a (falsy) zero becomes `0`; a nested object value is truthy and kept. -/
def jsSortKey (metric : String) (e : Entity) : MetricValue :=
  match List.lookup metric e.metrics with
  | some v => if v = MetricValue.num 0 then MetricValue.num 0 else v
  | none => MetricValue.num 0

/-- ES SortCompare interpretation of a comparator result: `NaN` counts as `0`. -/
def sortCompareVal : JsNum → ℚ
  | JsNum.nan => 0
  | JsNum.num q => q

/-- Insert for the stable sort: `x` is placed before the first element it does
not have to follow (comparator `≤ 0`), which keeps earlier-listed elements
before tied later ones. -/
def jsInsert (cmp : α → α → ℚ) (x : α) : List α → List α
  | [] => [x]
  | y :: ys => if cmp x y ≤ 0 then x :: y :: ys else y :: jsInsert cmp x ys

/-- The `Array.prototype.sort` with a consistent comparator: the unique stable
order.  Embedded as a stable insertion sort. -/
def jsSortStable (cmp : α → α → ℚ) : List α → List α
  | [] => []
  | x :: xs => jsInsert cmp x (jsSortStable cmp xs)

/-- The comparator `(a, b) => (metricsB[metric] || 0) - (metricsA[metric] || 0)`
of `getTopEntities`, composed with ES SortCompare. -/
def topCmp (metric : String) (a b : Entity) : ℚ :=
  sortCompareVal (jsSub (jsSortKey metric b) (jsSortKey metric a))

/-- The `getTopEntities` (`src/queries.ts`): copy the selected collection, sort it
descending by the metric (missing values defaulting to 0), `slice(0, limit)`. -/
def getTopEntitiesOn (d : Dataset) (entityType : EntityType) (metric : String) (limit : ℚ) :
    List Entity :=
  let entities := match entityType with
    | EntityType.author => d.authors
    | EntityType.institution => d.institutions
    | EntityType.journal => d.journals
  jsSliceEnd limit (jsSortStable (topCmp metric) entities)

/-- The `getTopEntities` bound to the fixture dataset. -/
def getTopEntities (entityType : EntityType) (metric : String) (limit : ℚ) : List Entity :=
  getTopEntitiesOn scivalData entityType metric limit

/-- The subset of zod schema combinators used by the repository
(`z.string`, `z.number`, `z.enum`, `z.array`, `.optional()`, `.default()`,
`z.object`), each carrying its `.describe` annotation where one can be set. -/
inductive Zod where
  | zstring (desc : Option String) : Zod
  | znumber (desc : Option String) : Zod
  | zenum (options : List String) (desc : Option String) : Zod
  | zarray (elem : Zod) (desc : Option String) : Zod
  | zoptional (inner : Zod) (desc : Option String) : Zod
  | zdefault (inner : Zod) (dflt : Json) (desc : Option String) : Zod
  | zobject (fields : List (String × Zod)) : Zod

/-- The `getEntitySchema` (`src/queries.ts`). -/
def getEntitySchema : Zod := Zod.zobject
  [("entityType", Zod.zenum ["author", "institution", "journal"] (some "Type of entity to retrieve")),
   ("entityId", Zod.zstring (some "Unique identifier for the entity"))]

/-- The `searchEntitiesSchema` (`src/queries.ts`).  `limit` is
`z.number().optional().default(10).describe(...)`: the describe annotation
lands on the outer `ZodDefault` wrapper. -/
def searchEntitiesSchema : Zod := Zod.zobject
  [("entityType", Zod.zenum ["author", "institution", "journal"] (some "Type of entity to search")),
   ("query", Zod.zstring (some "Search query string")),
   ("limit", Zod.zdefault (Zod.zoptional (Zod.znumber none) none) (Json.num 10)
      (some "Maximum number of results"))]

/-- The `getMetricsSchema` (`src/queries.ts`). -/
def getMetricsSchema : Zod := Zod.zobject
  [("entityType", Zod.zenum ["author", "institution", "journal"] (some "Type of entity")),
   ("entityId", Zod.zstring (some "Entity identifier")),
   ("metricNames", Zod.zoptional (Zod.zarray (Zod.zstring none) none)
      (some "Specific metrics to retrieve (all if not specified)"))]

/-- The `compareEntitiesSchema` (`src/queries.ts`). -/
def compareEntitiesSchema : Zod := Zod.zobject
  [("entityType", Zod.zenum ["author", "institution", "journal"] (some "Type of entities to compare")),
   ("entityIdA", Zod.zstring (some "First entity identifier")),
   ("entityIdB", Zod.zstring (some "Second entity identifier")),
   ("metric", Zod.zstring (some "Metric to compare (e.g., \"publications\", \"citations\", \"hIndex\")"))]

/-- The `getTrendSchema` (`src/queries.ts`). -/
def getTrendSchema : Zod := Zod.zobject
  [("entityId", Zod.zstring (some "Entity identifier")),
   ("metric", Zod.zstring (some "Metric to track over time")),
   ("startYear", Zod.zoptional (Zod.znumber none) (some "Start year (defaults to earliest available)")),
   ("endYear", Zod.zoptional (Zod.znumber none) (some "End year (defaults to latest available)"))]

/-- The `getTopEntitiesSchema` (`src/queries.ts`). -/
def getTopEntitiesSchema : Zod := Zod.zobject
  [("entityType", Zod.zenum ["author", "institution", "journal"] (some "Type of entity")),
   ("metric", Zod.zstring (some "Metric to rank by")),
   ("limit", Zod.zdefault (Zod.zoptional (Zod.znumber none) none) (Json.num 10)
      (some "Number of top entities to return"))]

/-- The zod method `.isOptional()`: true when `safeParse(undefined)` succeeds,
i.e. the outermost wrapper is `.optional()` or `.default()`. -/
def zodIsOptional : Zod → Bool
  | Zod.zoptional _ _ => true
  | Zod.zdefault _ _ _ => true
  | _ => false

mutual

/-- A computable structural size of a JSON value, used as a recursion budget. -/
def jsonSize : Json → Nat
  | Json.arr xs => jsonListSize xs + 1
  | Json.obj fs => jsonFieldsSize fs + 1
  | _ => 1

def jsonListSize : List Json → Nat
  | [] => 0
  | x :: xs => jsonSize x + jsonListSize xs + 1

def jsonFieldsSize : List (String × Json) → Nat
  | [] => 0
  | p :: rest => jsonSize p.2 + jsonFieldsSize rest + 1

end

mutual

/-- A computable structural size of a schema, used as a recursion budget. -/
def zodSize : Zod → Nat
  | Zod.zarray e _ => zodSize e + 1
  | Zod.zoptional i _ => zodSize i + 1
  | Zod.zdefault i dflt _ => zodSize i + jsonSize dflt + 1
  | Zod.zobject fs => zodFieldsSize fs + 1
  | _ => 1

def zodFieldsSize : List (String × Zod) → Nat
  | [] => 0
  | p :: rest => zodSize p.2 + zodFieldsSize rest + 1

end

mutual

/-- The `schema.parse(data)` for the zod subset above, on defined
(non-`undefined`) JSON input, written with an explicit recursion budget so
that the parser computes by plain reduction.  Every recursive call strictly
decreases `zodSize schema + jsonSize data`, and `zodParse` below supplies
that sum as the budget, so the `0` case is never reached. -/
def zodParseF : Nat → Zod → Json → Except (List String) Json
  | 0, _, _ => Except.error ["Recursion limit"]
  | _ + 1, Zod.zstring _, Json.str s => Except.ok (Json.str s)
  | _ + 1, Zod.zstring _, _ => Except.error ["Expected string"]
  | _ + 1, Zod.znumber _, Json.num q => Except.ok (Json.num q)
  | _ + 1, Zod.znumber _, _ => Except.error ["Expected number"]
  | _ + 1, Zod.zenum opts _, Json.str s =>
      if opts.contains s then Except.ok (Json.str s) else Except.error ["Invalid enum value"]
  | _ + 1, Zod.zenum _ _, _ => Except.error ["Expected string"]
  | fuel + 1, Zod.zarray elem _, Json.arr xs =>
      (match zodParseListF fuel elem xs with
       | Except.ok ys => Except.ok (Json.arr ys)
       | Except.error es => Except.error es)
  | _ + 1, Zod.zarray _ _, _ => Except.error ["Expected array"]
  | fuel + 1, Zod.zoptional inner _, v => zodParseF fuel inner v
  | fuel + 1, Zod.zdefault inner _ _, v => zodParseF fuel inner v
  | fuel + 1, Zod.zobject fields, Json.obj kvs =>
      (match zodParseFieldsF fuel fields kvs with
       | Except.ok out => Except.ok (Json.obj out)
       | Except.error es => Except.error es)
  | _ + 1, Zod.zobject _, _ => Except.error ["Expected object"]

/-- Parse every element of an array, collecting all issues. -/
def zodParseListF : Nat → Zod → List Json → Except (List String) (List Json)
  | 0, _, _ => Except.error ["Recursion limit"]
  | _ + 1, _, [] => Except.ok []
  | fuel + 1, elem, x :: xs =>
      (match zodParseF fuel elem x, zodParseListF fuel elem xs with
       | Except.ok y, Except.ok ys => Except.ok (y :: ys)
       | Except.error es, Except.ok _ => Except.error es
       | Except.ok _, Except.error es => Except.error es
       | Except.error es, Except.error es2 => Except.error (es ++ es2))

/-- Parse the declared fields of an object schema against the input object:
a present key is parsed by its field schema; a missing key is an error unless
the field is `.optional()` (omitted from the output) or has a `.default()`
(the default value is parsed by the inner schema and inserted). -/
def zodParseFieldsF : Nat → List (String × Zod) → List (String × Json) →
    Except (List String) (List (String × Json))
  | 0, _, _ => Except.error ["Recursion limit"]
  | _ + 1, [], _ => Except.ok []
  | fuel + 1, (k, sch) :: rest, kvs =>
      let head : Except (List String) (List (String × Json)) :=
        match List.lookup k kvs with
        | some v =>
            (match zodParseF fuel sch v with
             | Except.ok v2 => Except.ok [(k, v2)]
             | Except.error es => Except.error (es.map (fun e => k ++ ": " ++ e)))
        | none => zodParseMissingF fuel k sch
      match head, zodParseFieldsF fuel rest kvs with
      | Except.ok h, Except.ok t => Except.ok (h ++ t)
      | Except.error es, Except.ok _ => Except.error es
      | Except.ok _, Except.error es => Except.error es
      | Except.error es, Except.error es2 => Except.error (es ++ es2)

/-- A declared key absent from the input: `.optional()` omits it, `.default()`
parses the default through the wrapped schema, anything else is `Required`. -/
def zodParseMissingF : Nat → String → Zod → Except (List String) (List (String × Json))
  | 0, _, _ => Except.error ["Recursion limit"]
  | _ + 1, _, Zod.zoptional _ _ => Except.ok []
  | fuel + 1, k, Zod.zdefault inner dflt _ =>
      (match zodParseF fuel inner dflt with
       | Except.ok v2 => Except.ok [(k, v2)]
       | Except.error es => Except.error (es.map (fun e => k ++ ": " ++ e)))
  | _ + 1, k, _ => Except.error [k ++ ": Required"]

end

/-- The `schema.parse(data)`: the fueled parser with its sufficient budget. -/
def zodParse (z : Zod) (v : Json) : Except (List String) Json :=
  zodParseF (zodSize z + jsonSize v) z v

/-- The fields of an object schema render as declared, and an object schema
carries a `required` list: declared fields whose schema is not
`.isOptional()`, in declaration order. -/
def zodRequired (fields : List (String × Zod)) : List String :=
  fields.filterMap (fun p => if zodIsOptional p.2 then none else some p.1)

/-- The optional `description` property of a rendered schema node: JS
`{..., description: undefined}` serializes without the key. -/
def descField : Option String → List (String × Json)
  | some s => [("description", Json.str s)]
  | none => []

/-- JS object spread `{...base, default: v}` (used for `ZodDefault`); the
rendered base is always an object here. -/
def jsonObjSpread (base : Json) (kv : String × Json) : Json :=
  match base with
  | Json.obj fs => Json.obj (fs ++ [kv])
  | _ => Json.obj [kv]

mutual

/-- The renderer `zodToJsonSchema` (`src/index.ts`): the simplified zod-to-JSON-Schema
renderer.  A field is listed in `required` exactly when `.isOptional()` is
false; `.optional()` renders its inner schema (dropping its own description);
`.default()` spreads the inner rendering plus a `default` property. -/
def zodToJsonSchema : Zod → Json
  | Zod.zobject fields =>
      (match zodRequired fields with
       | [] => Json.obj [("type", Json.str "object"),
                         ("properties", Json.obj (zodProps fields))]
       | req => Json.obj [("type", Json.str "object"),
                          ("properties", Json.obj (zodProps fields)),
                          ("required", Json.arr (req.map Json.str))])
  | Zod.zstring d => Json.obj ([("type", Json.str "string")] ++ descField d)
  | Zod.znumber d => Json.obj ([("type", Json.str "number")] ++ descField d)
  | Zod.zarray elem d =>
      Json.obj ([("type", Json.str "array"), ("items", zodToJsonSchema elem)] ++ descField d)
  | Zod.zenum opts d =>
      Json.obj ([("type", Json.str "string"), ("enum", Json.arr (opts.map Json.str))] ++ descField d)
  | Zod.zoptional inner _ => zodToJsonSchema inner
  | Zod.zdefault inner dflt _ => jsonObjSpread (zodToJsonSchema inner) ("default", dflt)

/-- The `properties` object: every declared field rendered, in order. -/
def zodProps : List (String × Zod) → List (String × Json)
  | [] => []
  | (k, z) :: rest => (k, zodToJsonSchema z) :: zodProps rest

end

/-- Serialize a metric value (`res.json`). -/
def encodeMetricValue : MetricValue → Json
  | MetricValue.num q => Json.num q
  | MetricValue.obj a b c =>
      Json.obj [("top1", Json.num a), ("top5", Json.num b), ("top10", Json.num c)]

/-- Serialize a metrics object. -/
def encodeMetrics (ms : List (String × MetricValue)) : Json :=
  Json.obj (ms.map (fun p => (p.1, encodeMetricValue p.2)))

/-- Serialize the variant-specific entity fields (an absent optional
`affiliation` is dropped, as `JSON.stringify` drops `undefined`). -/
def encodeExtra : EntityExtra → List (String × Json)
  | EntityExtra.author (some aff) => [("affiliation", Json.str aff)]
  | EntityExtra.author none => []
  | EntityExtra.institution c => [("country", Json.str c)]
  | EntityExtra.journal p => [("publisher", Json.str p)]

/-- Serialize an entity in its declaration key order. -/
def encodeEntity (e : Entity) : Json :=
  Json.obj ([("id", Json.str e.id), ("name", Json.str e.name)]
    ++ encodeExtra e.extra ++ [("metrics", encodeMetrics e.metrics)])

/-- Serialize an entity-or-`null` result. -/
def encodeOptEntity : Option Entity → Json
  | none => Json.null
  | some e => encodeEntity e

/-- Serialize a list of entities. -/
def encodeEntityList (l : List Entity) : Json := Json.arr (l.map encodeEntity)

/-- Serialize a metrics-or-`null` result. -/
def encodeOptMetrics : Option (List (String × MetricValue)) → Json
  | none => Json.null
  | some ms => encodeMetrics ms

/-- Serialize an arithmetic result; `JSON.stringify` renders `NaN` as `null`. -/
def encodeJsNum : JsNum → Json
  | JsNum.nan => Json.null
  | JsNum.num q => Json.num q

/-- Serialize a comparison-or-`null` result. -/
def encodeOptComparison : Option Comparison → Json
  | none => Json.null
  | some c => Json.obj
      [("entityA", Json.obj [("id", Json.str c.entityA.id), ("name", Json.str c.entityA.name),
                             ("value", encodeMetricValue c.entityA.value)]),
       ("entityB", Json.obj [("id", Json.str c.entityB.id), ("name", Json.str c.entityB.name),
                             ("value", encodeMetricValue c.entityB.value)]),
       ("difference", encodeJsNum c.difference),
       ("percentDifference", encodeJsNum c.percentDifference)]

/-- Serialize a trend-series-or-`null` result. -/
def encodeOptTrend : Option (List TrendPoint) → Json
  | none => Json.null
  | some ps => Json.arr (ps.map (fun p => Json.obj [("year", Json.num p.year), ("value", Json.num p.value)]))

/-- Decode the validated `entityType` enum string. -/
def etFromString (s : String) : Option EntityType :=
  if s = "author" then some EntityType.author
  else if s = "institution" then some EntityType.institution
  else if s = "journal" then some EntityType.journal
  else none

/-- The `getEntity` as invoked by the boundary on validated parameters. -/
def runGetEntity (d : Dataset) : Json → Option Json
  | Json.obj kvs =>
    (match List.lookup "entityType" kvs, List.lookup "entityId" kvs with
     | some (Json.str t), some (Json.str i) =>
       (match etFromString t with
        | some et => some (encodeOptEntity (getEntityOn d et i))
        | none => none)
     | _, _ => none)
  | _ => none

/-- The `searchEntities` as invoked by the boundary on validated parameters
(the `limit` default has already been filled in by validation). -/
def runSearchEntities (d : Dataset) : Json → Option Json
  | Json.obj kvs =>
    (match List.lookup "entityType" kvs, List.lookup "query" kvs, List.lookup "limit" kvs with
     | some (Json.str t), some (Json.str q), some (Json.num lim) =>
       (match etFromString t with
        | some et => some (encodeEntityList (searchEntitiesOn d et q lim))
        | none => none)
     | _, _, _ => none)
  | _ => none

/-- Decode an optional validated `metricNames` array. -/
def decodeStrList : Option Json → Option (Option (List String))
  | none => some none
  | some (Json.arr xs) =>
      (match xs.mapM (fun x => match x with | Json.str s => some s | _ => none) with
       | some ss => some (some ss)
       | none => none)
  | some _ => none

/-- The `getMetrics` as invoked by the boundary on validated parameters. -/
def runGetMetrics (d : Dataset) : Json → Option Json
  | Json.obj kvs =>
    (match List.lookup "entityType" kvs, List.lookup "entityId" kvs,
           decodeStrList (List.lookup "metricNames" kvs) with
     | some (Json.str t), some (Json.str i), some mn =>
       (match etFromString t with
        | some et => some (encodeOptMetrics (getMetricsOn d et i mn))
        | none => none)
     | _, _, _ => none)
  | _ => none

/-- The `compareEntities` as invoked by the boundary on validated parameters. -/
def runCompareEntities (d : Dataset) : Json → Option Json
  | Json.obj kvs =>
    (match List.lookup "entityType" kvs, List.lookup "entityIdA" kvs,
           List.lookup "entityIdB" kvs, List.lookup "metric" kvs with
     | some (Json.str t), some (Json.str a), some (Json.str b), some (Json.str m) =>
       (match etFromString t with
        | some et => some (encodeOptComparison (compareEntitiesOn d et a b m))
        | none => none)
     | _, _, _, _ => none)
  | _ => none

/-- Decode an optional validated year bound. -/
def decodeOptNum : Option Json → Option (Option ℚ)
  | none => some none
  | some (Json.num q) => some (some q)
  | some _ => none

/-- The `getTrend` as invoked by the boundary on validated parameters. -/
def runGetTrend (d : Dataset) : Json → Option Json
  | Json.obj kvs =>
    (match List.lookup "entityId" kvs, List.lookup "metric" kvs,
           decodeOptNum (List.lookup "startYear" kvs), decodeOptNum (List.lookup "endYear" kvs) with
     | some (Json.str i), some (Json.str m), some sy, some ey =>
       some (encodeOptTrend (getTrendOn d i m sy ey))
     | _, _, _, _ => none)
  | _ => none

/-- The `getTopEntities` as invoked by the boundary on validated parameters. -/
def runGetTopEntities (d : Dataset) : Json → Option Json
  | Json.obj kvs =>
    (match List.lookup "entityType" kvs, List.lookup "metric" kvs, List.lookup "limit" kvs with
     | some (Json.str t), some (Json.str m), some (Json.num lim) =>
       (match etFromString t with
        | some et => some (encodeEntityList (getTopEntitiesOn d et m lim))
        | none => none)
     | _, _, _ => none)
  | _ => none

/-- One registry entry: declared parameter schema, description, and the
implementation on validated parameters (`none` models a thrown error). -/
structure FnEntry where
  schema : Zod
  description : String
  run : Json → Option Json

/-- The `queryFunctions` (`src/queries.ts`): the registry, in declaration order. -/
def queryFunctionsOn (d : Dataset) : List (String × FnEntry) :=
  [("getEntity",
    ⟨getEntitySchema,
     "Retrieve a specific entity (author, institution, or journal) by its unique identifier",
     runGetEntity d⟩),
   ("searchEntities",
    ⟨searchEntitiesSchema, "Search for entities by name or keywords", runSearchEntities d⟩),
   ("getMetrics",
    ⟨getMetricsSchema, "Get all metrics for a specific entity", runGetMetrics d⟩),
   ("compareEntities",
    ⟨compareEntitiesSchema, "Compare two entities on a specific metric and get the difference",
     runCompareEntities d⟩),
   ("getTrend",
    ⟨getTrendSchema, "Get trend data for an entity metric over a time period", runGetTrend d⟩),
   ("getTopEntities",
    ⟨getTopEntitiesSchema, "Get the top-performing entities ranked by a specific metric",
     runGetTopEntities d⟩)]

/-- The `GET /api/functions` introspection payload: one
`{name, description, parameters}` triple per registered function. -/
def functionsEndpoint (d : Dataset) : List (String × String × Json) :=
  (queryFunctionsOn d).map (fun p => (p.1, p.2.description, zodToJsonSchema p.2.schema))

/-- The response of `POST /api/query/:functionName`, by status:
404 `{error}`, 400 `{error, details}`, 500 `{error}`, 200 `{result}`. -/
inductive SingleResponse where
  | notFound (error : String) : SingleResponse
  | invalidParams (details : List String) : SingleResponse
  | serverError : SingleResponse
  | ok (result : Json) : SingleResponse

/-- One element of the `POST /api/batch` response: `{error}` for an unknown
function, `{success:false, error, details}` for invalid parameters,
`{success:false, error}` for an execution failure, `{success:true, result}`
on success. -/
inductive BatchItem where
  | notFound (error : String) : BatchItem
  | failure (details : List String) : BatchItem
  | execFailed : BatchItem
  | success (result : Json) : BatchItem

/-- Registry lookup by function name. -/
def lookupFn (d : Dataset) (functionName : String) : Option FnEntry :=
  List.lookup functionName (queryFunctionsOn d)

/-- The `POST /api/query/:functionName` (`src/index.ts`): look up, validate,
execute, wrap. -/
def handleSingle (d : Dataset) (functionName : String) (params : Json) : SingleResponse :=
  match lookupFn d functionName with
  | none => SingleResponse.notFound ("Function \x27" ++ functionName ++ "\x27 not found")
  | some cfg =>
    match zodParse cfg.schema params with
    | Except.error errs => SingleResponse.invalidParams errs
    | Except.ok validated =>
      match cfg.run validated with
      | none => SingleResponse.serverError
      | some r => SingleResponse.ok r

/-- One item of the batch endpoint: the same lookup/validate/execute shape,
wrapped in the batch envelope. -/
def handleBatchItem (d : Dataset) (functionName : String) (params : Json) : BatchItem :=
  match lookupFn d functionName with
  | none => BatchItem.notFound ("Function \x27" ++ functionName ++ "\x27 not found")
  | some cfg =>
    match zodParse cfg.schema params with
    | Except.error errs => BatchItem.failure errs
    | Except.ok validated =>
      match cfg.run validated with
      | none => BatchItem.execFailed
      | some r => BatchItem.success r

/-- The `POST /api/batch` (`src/index.ts`): every item attempted independently,
results collected in input order. -/
def batchEndpoint (d : Dataset) (queries : List (String × Json)) : List BatchItem :=
  queries.map (fun q => handleBatchItem d q.1 q.2)

/-- The envelope correspondence from single-invoke responses to batch items. -/
def toBatch : SingleResponse → BatchItem
  | SingleResponse.notFound m => BatchItem.notFound m
  | SingleResponse.invalidParams e => BatchItem.failure e
  | SingleResponse.serverError => BatchItem.execFailed
  | SingleResponse.ok r => BatchItem.success r

/-- The inverse envelope correspondence. -/
def toSingle : BatchItem → SingleResponse
  | BatchItem.notFound m => SingleResponse.notFound m
  | BatchItem.failure e => SingleResponse.invalidParams e
  | BatchItem.execFailed => SingleResponse.serverError
  | BatchItem.success r => SingleResponse.ok r

/-- The `required` list extracted from a rendered JSON schema (absent or
malformed means no required fields). -/
def requiredOf (j : Json) : List String :=
  match j with
  | Json.obj fs =>
    (match List.lookup "required" fs with
     | some (Json.arr xs) => xs.filterMap (fun x => match x with | Json.str s => some s | _ => none)
     | _ => [])
  | _ => []

/-- Spec-side predicate: the registered field schema is marked optional
(an `.optional()` anywhere in its wrapper chain). -/
def hasOptionalMark : Zod → Bool
  | Zod.zoptional _ _ => true
  | Zod.zdefault inner _ _ => hasOptionalMark inner
  | _ => false

/-- Spec-side predicate: the registered field schema gives a default
(a `.default()` anywhere in its wrapper chain). -/
def hasDefaultMark : Zod → Bool
  | Zod.zdefault _ _ _ => true
  | Zod.zoptional inner _ => hasDefaultMark inner
  | _ => false

/-- Spec-side required keys of an object schema: fields that are neither
marked optional nor given a default, in declaration order. -/
def claimRequiredKeys : Zod → List String
  | Zod.zobject fields =>
      fields.filterMap (fun p =>
        if hasOptionalMark p.2 || hasDefaultMark p.2 then none else some p.1)
  | _ => []

/-- Spec-side predicate of `searchEntities`: the entity name contains the
query as a case-insensitive substring. -/
abbrev nameMatchesCI (query : String) (e : Entity) : Prop :=
  (lowerStr query).data <:+: (lowerStr e.name).data

/-- Spec-side inclusive year-range predicate of `getTrend` (an absent bound
is unbounded on that side). -/
def inBoundsB (startYear endYear : Option ℚ) (p : TrendPoint) : Bool :=
  (match startYear with
   | some s => decide (s ≤ p.year)
   | none => true) &&
  (match endYear with
   | some e => decide (p.year ≤ e)
   | none => true)

/-- The bound that `getTrend` effectively applies: a bound of `0` is falsy in
the `if (startYear)` / `if (endYear)` truthiness tests and is not applied. -/
def effBound : Option ℚ → Option ℚ
  | some x => if x = 0 then none else some x
  | none => none

/-- Spec-side numeric sort key of `getTopEntities`: the numeric
value, a missing key counting as `0`. -/
def numericKey (metric : String) (e : Entity) : ℚ :=
  match List.lookup metric e.metrics with
  | some (MetricValue.num q) => q
  | _ => 0

/-- The value of the entity at `metric` is a number or missing (not the nested
percentiles object), so that a numeric sort order is well defined. -/
def isNumericOrMissing (metric : String) (e : Entity) : Bool :=
  match List.lookup metric e.metrics with
  | some (MetricValue.obj _ _ _) => false
  | _ => true

/-- Descending comparator derived from a numeric key. -/
def keyCmp (k : α → ℚ) (a b : α) : ℚ := k b - k a

/-- The stored trend series of `auth_001` (from `mockData.ts`). -/
def auth001Trend : List TrendPoint :=
  [⟨2019, 12⟩, ⟨2020, 15⟩, ⟨2021, 18⟩, ⟨2022, 22⟩, ⟨2023, 19⟩]

/-- A two-author dataset in which one entity has metric value `0`, for
exercising the division-guard branch of `compareEntities`. -/
def zeroMetricData : Dataset :=
  { authors := [ { id := "a", name := "A", extra := EntityExtra.author none,
                   metrics := [("x", MetricValue.num 5)] },
                 { id := "b", name := "B", extra := EntityExtra.author none,
                   metrics := [("x", MetricValue.num 0)] } ],
    institutions := [], journals := [], trends := [] }

set_option maxRecDepth 2000

theorem mem_jsInsert (cmp : α → α → ℚ) (x y : α) (l : List α) :
    y ∈ jsInsert cmp x l ↔ y = x ∨ y ∈ l := by
  induction l with
  | nil => simp [jsInsert]
  | cons z zs ih =>
    by_cases h : cmp x z ≤ 0
    · simp [jsInsert, h]
    · simp only [jsInsert, if_neg h, List.mem_cons, ih]
      tauto

theorem jsInsert_perm (cmp : α → α → ℚ) (x : α) (l : List α) :
    (jsInsert cmp x l).Perm (x :: l) := by
  induction l with
  | nil => simp [jsInsert]
  | cons z zs ih =>
    by_cases h : cmp x z ≤ 0
    · simp [jsInsert, h]
    · simp only [jsInsert, if_neg h]
      exact (ih.cons z).trans (List.Perm.swap x z zs)

theorem jsSortStable_perm (cmp : α → α → ℚ) (l : List α) :
    (jsSortStable cmp l).Perm l := by
  induction l with
  | nil => exact List.Perm.refl _
  | cons x xs ih => exact (jsInsert_perm cmp x _).trans (ih.cons x)

theorem mem_jsSortStable (cmp : α → α → ℚ) (y : α) (l : List α) :
    y ∈ jsSortStable cmp l ↔ y ∈ l :=
  (jsSortStable_perm cmp l).mem_iff

theorem jsInsert_congr (cmp₁ cmp₂ : α → α → ℚ) (x : α) (l : List α)
    (h : ∀ y ∈ l, cmp₁ x y = cmp₂ x y) : jsInsert cmp₁ x l = jsInsert cmp₂ x l := by
  induction l with
  | nil => rfl
  | cons z zs ih =>
    have hz := h z (List.mem_cons_self z zs)
    by_cases hc : cmp₁ x z ≤ 0
    · simp [jsInsert, hc, hz ▸ hc]
    · rw [jsInsert, jsInsert, if_neg hc, if_neg (hz ▸ hc)]
      exact congrArg (z :: ·) (ih (fun y hy => h y (List.mem_cons_of_mem z hy)))

theorem jsSortStable_congr (cmp₁ cmp₂ : α → α → ℚ) (l : List α)
    (h : ∀ a ∈ l, ∀ b ∈ l, cmp₁ a b = cmp₂ a b) :
    jsSortStable cmp₁ l = jsSortStable cmp₂ l := by
  induction l with
  | nil => rfl
  | cons x xs ih =>
    rw [jsSortStable, jsSortStable]
    rw [ih (fun a ha b hb => h a (List.mem_cons_of_mem x ha) b (List.mem_cons_of_mem x hb))]
    exact jsInsert_congr _ _ x _ (fun y hy => h x (List.mem_cons_self x xs) y
      (List.mem_cons_of_mem x ((mem_jsSortStable cmp₂ y xs).mp hy)))

theorem pairwise_jsInsert_key (k : α → ℚ) (x : α) (l : List α)
    (h : l.Pairwise (fun a b => k b ≤ k a)) :
    (jsInsert (keyCmp k) x l).Pairwise (fun a b => k b ≤ k a) := by
  induction l with
  | nil => simp [jsInsert]
  | cons z zs ih =>
    rcases List.pairwise_cons.mp h with ⟨hz, hzs⟩
    by_cases hc : keyCmp k x z ≤ 0
    · have hzx : k z ≤ k x := by simpa [keyCmp, sub_nonpos] using hc
      rw [jsInsert, if_pos hc]
      refine List.pairwise_cons.mpr ⟨?_, h⟩
      intro b hb
      rcases List.mem_cons.mp hb with rfl | hb2
      · exact hzx
      · exact le_trans (hz b hb2) hzx
    · have hxz : k x < k z := by
        have : ¬(k z - k x ≤ 0) := by simpa [keyCmp] using hc
        linarith
      rw [jsInsert, if_neg hc]
      refine List.pairwise_cons.mpr ⟨?_, ih hzs⟩
      intro b hb
      rcases (mem_jsInsert (keyCmp k) x b zs).mp hb with rfl | hb2
      · exact le_of_lt hxz
      · exact hz b hb2

theorem pairwise_jsSortStable_key (k : α → ℚ) (l : List α) :
    (jsSortStable (keyCmp k) l).Pairwise (fun a b => k b ≤ k a) := by
  induction l with
  | nil => simp [jsSortStable]
  | cons x xs ih => exact pairwise_jsInsert_key k x _ ih

theorem filter_jsInsert_eq_key (k : α → ℚ) (q : ℚ) (x : α) (l : List α) (hx : k x = q) :
    (jsInsert (keyCmp k) x l).filter (fun e => decide (k e = q)) =
      x :: l.filter (fun e => decide (k e = q)) := by
  induction l with
  | nil => simp [jsInsert, hx]
  | cons z zs ih =>
    by_cases hc : keyCmp k x z ≤ 0
    · simp [jsInsert, hc, List.filter_cons, hx]
    · have hz : ¬(k z = q) := by
        have : ¬(k z - k x ≤ 0) := by simpa [keyCmp] using hc
        intro hzq
        rw [hzq, hx] at this
        simp at this
      simp [jsInsert, hc, List.filter_cons, hz, ih]

theorem filter_jsInsert_ne_key (k : α → ℚ) (q : ℚ) (x : α) (l : List α) (hx : ¬(k x = q)) :
    (jsInsert (keyCmp k) x l).filter (fun e => decide (k e = q)) =
      l.filter (fun e => decide (k e = q)) := by
  induction l with
  | nil => simp [jsInsert, hx]
  | cons z zs ih =>
    by_cases hc : keyCmp k x z ≤ 0
    · simp [jsInsert, hc, List.filter_cons, hx]
    · simp [jsInsert, hc, List.filter_cons, ih]

theorem filter_jsSortStable_key (k : α → ℚ) (l : List α) (q : ℚ) :
    (jsSortStable (keyCmp k) l).filter (fun e => decide (k e = q)) =
      l.filter (fun e => decide (k e = q)) := by
  induction l with
  | nil => rfl
  | cons x xs ih =>
    by_cases hx : k x = q
    · rw [jsSortStable, filter_jsInsert_eq_key k q x _ hx, ih, List.filter_cons]
      simp [hx]
    · rw [jsSortStable, filter_jsInsert_ne_key k q x _ hx, ih, List.filter_cons]
      simp [hx]

theorem jsTrunc_natCast (n : ℕ) : jsTrunc ((n : ℚ)) = (n : ℤ) := by
  simp [jsTrunc]

theorem jsSliceEnd_natCast (n : ℕ) (l : List α) : jsSliceEnd ((n : ℚ)) l = l.take n := by
  rw [jsSliceEnd, jsTrunc_natCast]
  have h : ¬((n : ℤ) < 0) := by omega
  rw [if_neg h]
  simp

theorem getTopEntitiesOn_eq (d : Dataset) (et : EntityType) (metric : String) (limit : ℚ) :
    getTopEntitiesOn d et metric limit =
      jsSliceEnd limit (jsSortStable (topCmp metric) (collOf d et)) := by
  cases et <;> rfl

theorem getEntityOn_eq_find (d : Dataset) (et : EntityType) (entityId : String) :
    getEntityOn d et entityId = (collOf d et).find? (fun e => e.id == entityId) := by
  cases et <;> rfl

theorem searchEntitiesOn_eq (d : Dataset) (et : EntityType) (query : String) (limit : ℚ) :
    searchEntitiesOn d et query limit =
      jsSliceEnd limit ((collOf d et).filter (fun e => decide (nameMatchesCI query e))) := by
  cases et <;> rfl

theorem jsSortKey_eq_num (metric : String) (e : Entity)
    (h : isNumericOrMissing metric e = true) :
    jsSortKey metric e = MetricValue.num (numericKey metric e) := by
  unfold isNumericOrMissing at h
  unfold jsSortKey numericKey
  cases hA : List.lookup metric e.metrics with
  | none => simp
  | some v =>
    rw [hA] at h
    cases v with
    | num q => by_cases hq : q = 0 <;> simp [hq]
    | obj t1 t5 t10 => simp at h

theorem topCmp_eq_keyCmp (metric : String) (a b : Entity)
    (ha : isNumericOrMissing metric a = true) (hb : isNumericOrMissing metric b = true) :
    topCmp metric a b = keyCmp (numericKey metric) a b := by
  unfold topCmp keyCmp
  rw [jsSortKey_eq_num metric a ha, jsSortKey_eq_num metric b hb]
  simp [jsSub, sortCompareVal]

theorem jsSortStable_topCmp_eq (metric : String) (l : List Entity)
    (h : ∀ e ∈ l, isNumericOrMissing metric e = true) :
    jsSortStable (topCmp metric) l = jsSortStable (keyCmp (numericKey metric)) l :=
  jsSortStable_congr _ _ l (fun a ha b hb => topCmp_eq_keyCmp metric a b (h a ha) (h b hb))

theorem handleBatchItem_eq_toBatch (d : Dataset) (functionName : String) (params : Json) :
    handleBatchItem d functionName params = toBatch (handleSingle d functionName params) := by
  unfold handleBatchItem handleSingle
  cases lookupFn d functionName with
  | none => rfl
  | some cfg =>
    dsimp only
    cases zodParse cfg.schema params with
    | error es => rfl
    | ok v =>
      dsimp only
      cases cfg.run v with
      | none => rfl
      | some r => rfl

theorem find?_id_first (l : List Entity) (e : Entity) (entityId : String)
    (he : e ∈ l) (hid : e.id = entityId) (hnd : (l.map Entity.id).Nodup) :
    l.find? (fun x => x.id == entityId) = some e := by
  induction l with
  | nil => cases he
  | cons x xs ih =>
    have hnd2 : (x.id :: xs.map Entity.id).Nodup := by
      rw [List.map_cons] at hnd
      exact hnd
    rcases List.nodup_cons.mp hnd2 with ⟨hx_not, hndtail⟩
    rcases List.mem_cons.mp he with rfl | hmem
    · rw [List.find?_cons_of_pos _ (by simp [hid])]
    · have hx : ¬(x.id = entityId) := by
        intro hxe
        exact hx_not (hxe ▸ hid ▸ List.mem_map_of_mem Entity.id hmem)
      rw [List.find?_cons_of_neg _ (by simpa using hx)]
      exact ih hmem hndtail

theorem getTrendOn_some (d : Dataset) (entityId metric : String) (startYear endYear : Option ℚ)
    (td : List TrendPoint) (htd : List.lookup entityId d.trends = some td) :
    getTrendOn d entityId metric startYear endYear =
      some (td.filter (fun p => inBoundsB (effBound startYear) (effBound endYear) p)) := by
  unfold getTrendOn
  rw [htd]
  dsimp only
  congr 1
  cases startYear with
  | none =>
    cases endYear with
    | none => simp [effBound, inBoundsB]
    | some e => by_cases he : e = 0 <;> simp [effBound, he, inBoundsB]
  | some s =>
    by_cases hs : s = 0
    · cases endYear with
      | none => simp [effBound, hs, inBoundsB]
      | some e => by_cases he : e = 0 <;> simp [effBound, hs, he, inBoundsB]
    · cases endYear with
      | none => simp [effBound, hs, inBoundsB]
      | some e =>
        by_cases he : e = 0
        · simp [effBound, hs, he, inBoundsB]
        · dsimp only
          rw [if_pos he, if_pos hs, List.filter_filter]
          simp only [effBound, if_neg hs, if_neg he]
          exact List.filter_congr (fun p _ => by simp [inBoundsB, Bool.and_comm])

theorem getTrendOn_none_iff (d : Dataset) (entityId metric : String)
    (startYear endYear : Option ℚ) :
    getTrendOn d entityId metric startYear endYear = none ↔
      List.lookup entityId d.trends = none := by
  cases htd : List.lookup entityId d.trends with
  | none =>
    unfold getTrendOn
    rw [htd]
  | some td =>
    rw [getTrendOn_some d entityId metric startYear endYear td htd]
    simp [htd]

theorem jsSub_neg (vA vB : MetricValue) : jsSub vA vB = jsNeg (jsSub vB vA) := by
  cases vA <;> cases vB <;> simp [jsSub, jsNeg]

theorem compareEntitiesOn_some_iff (d : Dataset) (et : EntityType)
    (a b metric : String) (c : Comparison) :
    compareEntitiesOn d et a b metric = some c ↔
      ∃ eA eB vA vB, getEntityOn d et a = some eA ∧ getEntityOn d et b = some eB ∧
        List.lookup metric eA.metrics = some vA ∧ List.lookup metric eB.metrics = some vB ∧
        c = { entityA := ⟨eA.id, eA.name, vA⟩, entityB := ⟨eB.id, eB.name, vB⟩,
              difference := jsSub vA vB,
              percentDifference :=
                if vB ≠ MetricValue.num 0
                then jsMul (jsDiv (jsSub vA vB) vB) 100
                else JsNum.num 0 } := by
  constructor
  · intro h
    cases hA : getEntityOn d et a with
    | none =>
      simp only [compareEntitiesOn, hA] at h
      exact absurd h (by simp)
    | some eA =>
      cases hB : getEntityOn d et b with
      | none =>
        simp only [compareEntitiesOn, hA, hB] at h
        exact absurd h (by simp)
      | some eB =>
        cases hvA : List.lookup metric eA.metrics with
        | none =>
          simp only [compareEntitiesOn, hA, hB, hvA] at h
          exact absurd h (by simp)
        | some vA =>
          cases hvB : List.lookup metric eB.metrics with
          | none =>
            simp only [compareEntitiesOn, hA, hB, hvA, hvB] at h
            exact absurd h (by simp)
          | some vB =>
            simp only [compareEntitiesOn, hA, hB, hvA, hvB] at h
            exact ⟨eA, eB, vA, vB, rfl, rfl, hvA, hvB, (Option.some.inj h).symm⟩
  · rintro ⟨eA, eB, vA, vB, hA, hB, hvA, hvB, rfl⟩
    simp only [compareEntitiesOn, hA, hB, hvA, hvB]

/-- C7: for every entityType, entityId and every metricNames value,
`getMetrics` returns exactly the full metrics mapping of the entity returned
by `getEntity` (the metricNames filter has no effect), and is absent exactly
when `getEntity` is absent. -/
theorem spec_c7 (d : Dataset) (et : EntityType) (entityId : String)
    (metricNames : Option (List String)) :
    getMetricsOn d et entityId metricNames =
      Option.map Entity.metrics (getEntityOn d et entityId) ∧
    (∀ other : Option (List String),
      getMetricsOn d et entityId metricNames = getMetricsOn d et entityId other) := by
  constructor
  · unfold getMetricsOn
    cases getEntityOn d et entityId <;> rfl
  · intro other
    rfl

/-- C8: `getEntity` returns a stored entity of the selected collection with
the requested id when one exists (and with unique ids, exactly that stored
entity); it returns the absent value exactly when no entity of that
collection has the id.  It is a total function (never throws). -/
theorem spec_c8 (d : Dataset) (et : EntityType) (entityId : String) :
    (getEntityOn d et entityId = none ↔ ∀ e ∈ collOf d et, e.id ≠ entityId) ∧
    (∀ e, getEntityOn d et entityId = some e → e ∈ collOf d et ∧ e.id = entityId) ∧
    (∀ e, e ∈ collOf d et → e.id = entityId → ((collOf d et).map Entity.id).Nodup →
       getEntityOn d et entityId = some e) := by
  rw [getEntityOn_eq_find]
  refine ⟨?_, ?_, ?_⟩
  · rw [List.find?_eq_none]
    constructor
    · intro h e he
      simpa using h e he
    · intro h e he
      simpa using h e he
  · intro e h
    exact ⟨List.mem_of_find?_eq_some h, by simpa using List.find?_some h⟩
  · intro e he hid hnd
    exact find?_id_first _ e entityId he hid hnd

theorem spec_c8_witness :
    Option.map Entity.id (getEntityOn scivalData EntityType.author "auth_001") =
      some "auth_001" := by
  have h := (spec_c8 scivalData EntityType.author "auth_001").2.1
  cases hE : getEntityOn scivalData EntityType.author "auth_001" with
  | none => exact absurd hE (by decide)
  | some e =>
    rcases h e hE with ⟨_, hid⟩
    simp [hid]

/-- C1: `compareEntities` is absent exactly when an entity lookup fails or the
metric key is undefined on at least one of the two entities; otherwise it
returns the comparison whose `difference` is `valueA - valueB` and whose
`percentDifference` is `0` when `valueB == 0` and
`((valueA - valueB) / valueB) * 100` otherwise. -/
theorem spec_c1 (d : Dataset) (et : EntityType) (a b metric : String) :
    (compareEntitiesOn d et a b metric = none ↔
       getEntityOn d et a = none ∨ getEntityOn d et b = none ∨
       (∃ eA eB, getEntityOn d et a = some eA ∧ getEntityOn d et b = some eB ∧
          (List.lookup metric eA.metrics = none ∨ List.lookup metric eB.metrics = none))) ∧
    (∀ c eA eB vA vB, compareEntitiesOn d et a b metric = some c →
       getEntityOn d et a = some eA → getEntityOn d et b = some eB →
       List.lookup metric eA.metrics = some vA → List.lookup metric eB.metrics = some vB →
       c.entityA = ⟨eA.id, eA.name, vA⟩ ∧ c.entityB = ⟨eB.id, eB.name, vB⟩ ∧
       c.difference = jsSub vA vB ∧
       c.percentDifference = (if vB = MetricValue.num 0 then JsNum.num 0
                              else jsMul (jsDiv (jsSub vA vB) vB) 100)) := by
  constructor
  · constructor
    · intro h
      cases hA : getEntityOn d et a with
      | none => exact Or.inl rfl
      | some eA =>
        cases hB : getEntityOn d et b with
        | none => exact Or.inr (Or.inl rfl)
        | some eB =>
          cases hvA : List.lookup metric eA.metrics with
          | none => exact Or.inr (Or.inr ⟨eA, eB, rfl, rfl, Or.inl hvA⟩)
          | some vA =>
            cases hvB : List.lookup metric eB.metrics with
            | none => exact Or.inr (Or.inr ⟨eA, eB, rfl, rfl, Or.inr hvB⟩)
            | some vB =>
              have hsome := (compareEntitiesOn_some_iff d et a b metric _).mpr
                ⟨eA, eB, vA, vB, hA, hB, hvA, hvB, rfl⟩
              exact absurd (hsome.symm.trans h) (by simp)
    · rintro (h | h | ⟨eA, eB, hA, hB, (hv | hv)⟩)
      · cases hB2 : getEntityOn d et b <;> simp [compareEntitiesOn, h, hB2]
      · cases hA2 : getEntityOn d et a <;> simp [compareEntitiesOn, h, hA2]
      · cases hvB2 : List.lookup metric eB.metrics <;>
          simp [compareEntitiesOn, hA, hB, hv, hvB2]
      · cases hvA2 : List.lookup metric eA.metrics <;>
          simp [compareEntitiesOn, hA, hB, hv, hvA2]
  · intro c eA eB vA vB hc hA hB hvA hvB
    rcases (compareEntitiesOn_some_iff d et a b metric c).mp hc with
      ⟨eA', eB', vA', vB', hA', hB', hvA', hvB', rfl⟩
    obtain rfl : eA = eA' := Option.some.inj (hA.symm.trans hA')
    obtain rfl : eB = eB' := Option.some.inj (hB.symm.trans hB')
    obtain rfl : vA = vA' := Option.some.inj (hvA.symm.trans hvA')
    obtain rfl : vB = vB' := Option.some.inj (hvB.symm.trans hvB')
    refine ⟨rfl, rfl, rfl, ?_⟩
    by_cases hz : vA = MetricValue.num 0
    all_goals by_cases hz2 : vB = MetricValue.num 0 <;> simp [hz2]

theorem spec_c1_witness :
    Option.map Comparison.difference
        (compareEntitiesOn scivalData EntityType.author "auth_002" "auth_001" "citations") =
      some (JsNum.num 4089) ∧
    Option.map Comparison.percentDifference
        (compareEntitiesOn scivalData EntityType.author "auth_002" "auth_001" "citations") =
      some (JsNum.num (408900 / 4823)) := by
  have hA : getEntityOn scivalData EntityType.author "auth_002" =
      some (mockAuthors.get ⟨1, by decide⟩) := rfl
  have hB : getEntityOn scivalData EntityType.author "auth_001" =
      some (mockAuthors.get ⟨0, by decide⟩) := rfl
  have hvA : List.lookup "citations" (mockAuthors.get ⟨1, by decide⟩).metrics =
      some (MetricValue.num 8912) := rfl
  have hvB : List.lookup "citations" (mockAuthors.get ⟨0, by decide⟩).metrics =
      some (MetricValue.num 4823) := rfl
  have hc := (compareEntitiesOn_some_iff scivalData EntityType.author
    "auth_002" "auth_001" "citations" _).mpr ⟨_, _, _, _, hA, hB, hvA, hvB, rfl⟩
  have h := (spec_c1 scivalData EntityType.author "auth_002" "auth_001" "citations").2
    _ _ _ _ _ hc hA hB hvA hvB
  rw [hc]
  refine ⟨?_, ?_⟩
  · exact congrArg some (h.2.2.1.trans (by with_unfolding_all rfl))
  · exact congrArg some (h.2.2.2.trans (by with_unfolding_all rfl))

/-- C6: whenever both orientations of a comparison are defined, the
differences are exact negations of one another; and whenever the metric
value of entity B is `0`, the percent difference of
`compareEntities(A,B,metric)` is `0` regardless of the value of A
(percentDifference is not antisymmetric). -/
theorem spec_c6 (d : Dataset) (et : EntityType) (a b metric : String) :
    (∀ cAB cBA, compareEntitiesOn d et a b metric = some cAB →
       compareEntitiesOn d et b a metric = some cBA →
       cAB.difference = jsNeg cBA.difference) ∧
    (∀ c eB, compareEntitiesOn d et a b metric = some c →
       getEntityOn d et b = some eB →
       List.lookup metric eB.metrics = some (MetricValue.num 0) →
       c.percentDifference = JsNum.num 0) := by
  constructor
  · intro cAB cBA hAB hBA
    rcases (compareEntitiesOn_some_iff d et a b metric cAB).mp hAB with
      ⟨eA, eB, vA, vB, hA, hB, hvA, hvB, rfl⟩
    rcases (compareEntitiesOn_some_iff d et b a metric cBA).mp hBA with
      ⟨eB2, eA2, vB2, vA2, hB2, hA2, hvB2, hvA2, rfl⟩
    obtain rfl : eA = eA2 := Option.some.inj (hA.symm.trans hA2)
    obtain rfl : eB = eB2 := Option.some.inj (hB.symm.trans hB2)
    obtain rfl : vA = vA2 := Option.some.inj (hvA.symm.trans hvA2)
    obtain rfl : vB = vB2 := Option.some.inj (hvB.symm.trans hvB2)
    exact jsSub_neg _ _
  · intro c eB hc hB hvB
    rcases (compareEntitiesOn_some_iff d et a b metric c).mp hc with
      ⟨eA', eB', vA', vB', hA', hB', hvA', hvB', rfl⟩
    obtain rfl : eB = eB' := Option.some.inj (hB.symm.trans hB')
    have hz : vB' = MetricValue.num 0 := Option.some.inj (hvB'.symm.trans hvB)
    simp [hz]

theorem spec_c6_witness :
    Option.map Comparison.difference
        (compareEntitiesOn zeroMetricData EntityType.author "a" "b" "x") =
      some (JsNum.num 5) ∧
    Option.map Comparison.difference
        (compareEntitiesOn zeroMetricData EntityType.author "b" "a" "x") =
      some (JsNum.num (-5)) ∧
    Option.map Comparison.percentDifference
        (compareEntitiesOn zeroMetricData EntityType.author "a" "b" "x") =
      some (JsNum.num 0) := by
  have h := spec_c6 zeroMetricData EntityType.author "a" "b" "x"
  have hgA : getEntityOn zeroMetricData EntityType.author "a" =
      some (zeroMetricData.authors.get ⟨0, by decide⟩) := rfl
  have hgB : getEntityOn zeroMetricData EntityType.author "b" =
      some (zeroMetricData.authors.get ⟨1, by decide⟩) := rfl
  have hvA : List.lookup "x" (zeroMetricData.authors.get ⟨0, by decide⟩).metrics =
      some (MetricValue.num 5) := rfl
  have hvB : List.lookup "x" (zeroMetricData.authors.get ⟨1, by decide⟩).metrics =
      some (MetricValue.num 0) := rfl
  have hAB := (compareEntitiesOn_some_iff zeroMetricData EntityType.author
    "a" "b" "x" _).mpr ⟨_, _, _, _, hgA, hgB, hvA, hvB, rfl⟩
  have hBA := (compareEntitiesOn_some_iff zeroMetricData EntityType.author
    "b" "a" "x" _).mpr ⟨_, _, _, _, hgB, hgA, hvB, hvA, rfl⟩
  have hdiff := h.1 _ _ hAB hBA
  have hpct := h.2 _ _ hAB hgB hvB
  rw [hAB, hBA]
  refine ⟨?_, ?_, ?_⟩
  · exact congrArg some (hdiff.trans (by with_unfolding_all rfl))
  · exact congrArg some (by with_unfolding_all rfl)
  · exact congrArg some hpct

/-- C4 (amended): `getTrend` is absent exactly when the entity has no trend
series and does not depend on the `metric` argument; the result is the stored
series filtered by the inclusive bounds that the code applies — a provided
bound equal to `0` is treated as omitted (JS truthiness), every other bound
is applied independently and inclusively — preserving the series order. -/
theorem spec_c4 (d : Dataset) (entityId metric : String) (startYear endYear : Option ℚ) :
    (getTrendOn d entityId metric startYear endYear = none ↔
       List.lookup entityId d.trends = none) ∧
    (∀ metric2, getTrendOn d entityId metric startYear endYear =
       getTrendOn d entityId metric2 startYear endYear) ∧
    (∀ td, List.lookup entityId d.trends = some td →
       getTrendOn d entityId metric startYear endYear =
         some (td.filter (fun p => inBoundsB (effBound startYear) (effBound endYear) p)) ∧
       List.Sublist (td.filter (fun p => inBoundsB (effBound startYear) (effBound endYear) p)) td) := by
  refine ⟨getTrendOn_none_iff d entityId metric startYear endYear, ?_, ?_⟩
  · intro metric2
    rfl
  · intro td htd
    exact ⟨getTrendOn_some d entityId metric startYear endYear td htd, List.filter_sublist td⟩

theorem spec_c4_witness :
    getTrendOn scivalData "auth_001" "publications" (some 2020) (some 2022) =
      some [⟨2020, 15⟩, ⟨2021, 18⟩, ⟨2022, 22⟩] := by
  have h := ((spec_c4 scivalData "auth_001" "publications" (some 2020) (some 2022)).2.2
    auth001Trend (by decide)).1
  exact h.trans (by with_unfolding_all rfl)

theorem spec_c4_counterexample :
    List.lookup "auth_001" scivalData.trends = some auth001Trend ∧
    auth001Trend.filter (fun p => inBoundsB none (some 0) p) = [] ∧
    getTrendOn scivalData "auth_001" "publications" none (some 0) = some auth001Trend ∧
    some auth001Trend ≠ (some ([] : List TrendPoint)) := by
  refine ⟨by decide, by with_unfolding_all rfl, by with_unfolding_all rfl, by decide⟩

/-- C10: the absent result of `getTrend` arises only from the series lookup,
never from the year filtering: for an entity with a series, the result is
always present, and when the applied year filters exclude every point the
result is the empty sequence in the success channel. -/
theorem spec_c10 (d : Dataset) (entityId metric : String) (startYear endYear : Option ℚ) :
    (getTrendOn d entityId metric startYear endYear = none ↔
       List.lookup entityId d.trends = none) ∧
    (∀ td, List.lookup entityId d.trends = some td →
       (getTrendOn d entityId metric startYear endYear).isSome = true ∧
       (td.filter (fun p => inBoundsB (effBound startYear) (effBound endYear) p) = [] →
          getTrendOn d entityId metric startYear endYear = some [])) := by
  refine ⟨getTrendOn_none_iff d entityId metric startYear endYear, ?_⟩
  intro td htd
  have hsome := getTrendOn_some d entityId metric startYear endYear td htd
  constructor
  · rw [hsome]
    rfl
  · intro hempty
    rw [hsome, hempty]

theorem spec_c10_witness :
    getTrendOn scivalData "auth_001" "publications" (some 3000) none = some [] := by
  exact ((spec_c10 scivalData "auth_001" "publications" (some 3000) none).2
    auth001Trend (by decide)).2 (by with_unfolding_all rfl)

/-- C2 (amended): for metrics whose stored values are numeric where present,
`getTopEntities` returns the selected collection stably sorted descending by
the metric value (missing keys counting as 0) and then truncated; for every
nonnegative integer limit the result is the first `limit` elements of that
sort and its length is `min limit collectionSize` (a negative limit instead
drops elements from the end, per JS `slice`). -/
theorem spec_c2 (d : Dataset) (et : EntityType) (metric : String)
    (hnum : ∀ e ∈ collOf d et, isNumericOrMissing metric e = true) :
    (jsSortStable (topCmp metric) (collOf d et)).Perm (collOf d et) ∧
    (jsSortStable (topCmp metric) (collOf d et)).Pairwise
      (fun a b => numericKey metric b ≤ numericKey metric a) ∧
    (∀ q : ℚ, (jsSortStable (topCmp metric) (collOf d et)).filter
        (fun e => decide (numericKey metric e = q)) =
      (collOf d et).filter (fun e => decide (numericKey metric e = q))) ∧
    (∀ n : ℕ, getTopEntitiesOn d et metric ((n : ℚ)) =
        (jsSortStable (topCmp metric) (collOf d et)).take n ∧
      (getTopEntitiesOn d et metric ((n : ℚ))).length = min n (collOf d et).length) := by
  have hsort := jsSortStable_topCmp_eq metric (collOf d et) hnum
  refine ⟨jsSortStable_perm _ _, ?_, ?_, ?_⟩
  · rw [hsort]
    exact pairwise_jsSortStable_key _ _
  · intro q
    rw [hsort]
    exact filter_jsSortStable_key _ _ q
  · intro n
    constructor
    · rw [getTopEntitiesOn_eq, jsSliceEnd_natCast]
    · rw [getTopEntitiesOn_eq, jsSliceEnd_natCast, List.length_take,
        (jsSortStable_perm (topCmp metric) (collOf d et)).length_eq]

theorem spec_c2_witness :
    (getTopEntitiesOn scivalData EntityType.author "citations" (((2 : ℕ) : ℚ))).map Entity.id =
      ["auth_002", "auth_001"] ∧
    (getTopEntitiesOn scivalData EntityType.author "citations" (((2 : ℕ) : ℚ))).length =
      min 2 (collOf scivalData EntityType.author).length := by
  have hnum : ∀ e ∈ collOf scivalData EntityType.author,
      isNumericOrMissing "citations" e = true := by decide
  have h := spec_c2 scivalData EntityType.author "citations" hnum
  refine ⟨?_, (h.2.2.2 2).2⟩
  rw [(h.2.2.2 2).1]
  with_unfolding_all rfl

theorem spec_c2_counterexample :
    (getTopEntitiesOn scivalData EntityType.author "citations" (-1)).map Entity.id =
      ["auth_002", "auth_001"] ∧
    ¬(((getTopEntitiesOn scivalData EntityType.author "citations" (-1)).length : ℚ) =
       min (-1 : ℚ) (((collOf scivalData EntityType.author).length : ℚ))) := by
  constructor
  · with_unfolding_all rfl
  · have h1 : (getTopEntitiesOn scivalData EntityType.author "citations" (-1)).length = 2 := by
      with_unfolding_all rfl
    have h2 : (collOf scivalData EntityType.author).length = 3 := rfl
    rw [h1, h2]
    norm_num

/-- C3: `searchEntities` returns exactly the entities of the selected
collection whose name contains the query as a case-insensitive substring, in
collection order, truncated to `limit` (for a nonnegative integer limit,
the first `limit` matches); the empty query matches every entity, and two
queries with the same lowercasing yield identical results. -/
theorem spec_c3 (d : Dataset) (et : EntityType) (query : String) (limit : ℚ) :
    searchEntitiesOn d et query limit =
      jsSliceEnd limit ((collOf d et).filter (fun e => decide (nameMatchesCI query e))) ∧
    (∀ n : ℕ, searchEntitiesOn d et query ((n : ℚ)) =
      ((collOf d et).filter (fun e => decide (nameMatchesCI query e))).take n) ∧
    (query = "" → (collOf d et).filter (fun e => decide (nameMatchesCI query e)) = collOf d et) ∧
    (∀ q2, lowerStr query = lowerStr q2 →
      searchEntitiesOn d et query limit = searchEntitiesOn d et q2 limit) := by
  refine ⟨searchEntitiesOn_eq d et query limit, ?_, ?_, ?_⟩
  · intro n
    rw [searchEntitiesOn_eq, jsSliceEnd_natCast]
  · rintro rfl
    apply List.filter_eq_self.mpr
    intro e he
    simp only [decide_eq_true_eq]
    exact List.nil_infix
  · intro q2 hq
    rw [searchEntitiesOn_eq, searchEntitiesOn_eq]
    simp only [nameMatchesCI, hq]

theorem spec_c3_witness :
    searchEntitiesOn scivalData EntityType.author "" 10 = collOf scivalData EntityType.author ∧
    searchEntitiesOn scivalData EntityType.author "chen" 10 =
      searchEntitiesOn scivalData EntityType.author "CHEN" 10 := by
  constructor
  · have h := spec_c3 scivalData EntityType.author "" 10
    rw [h.1, h.2.2.1 rfl]
    with_unfolding_all rfl
  · exact (spec_c3 scivalData EntityType.author "chen" 10).2.2.2 "CHEN" (by decide)

set_option maxRecDepth 8000 in
/-- C5: batch invocation maps each (functionName, rawParams) item
independently through the same lookup/validate/execute pipeline as a single
invocation, preserving length and input order; each item envelope is the
image of the single-invoke envelope under an explicit bijection (unknown
function, invalid parameters, execution failure and success included), and a
valid and an invalid item in one batch yield a success and a failure
envelope side by side. -/
theorem spec_c5 (d : Dataset) (queries : List (String × Json)) :
    batchEndpoint d queries = queries.map (fun q => toBatch (handleSingle d q.1 q.2)) ∧
    (batchEndpoint d queries).length = queries.length ∧
    (∀ i : ℕ, (batchEndpoint d queries)[i]? =
      (queries[i]?).map (fun q => handleBatchItem d q.1 q.2)) ∧
    (∀ s, toSingle (toBatch s) = s) ∧
    (∀ b, toBatch (toSingle b) = b) ∧
    batchEndpoint scivalData
        [("getEntity", Json.obj [("entityType", Json.str "author"), ("entityId", Json.str "auth_001")]),
         ("getEntity", Json.obj [("entityType", Json.str "nope")])] =
      [BatchItem.success (encodeEntity (mockAuthors.get ⟨0, by decide⟩)),
       BatchItem.failure ["entityType: Invalid enum value", "entityId: Required"]] := by
  refine ⟨?_, ?_, ?_, ?_, ?_, ?_⟩
  · have hfn : (fun q : String × Json => handleBatchItem d q.1 q.2) =
        fun q : String × Json => toBatch (handleSingle d q.1 q.2) :=
      funext fun q => handleBatchItem_eq_toBatch d q.1 q.2
    rw [batchEndpoint, hfn]
  · exact List.length_map _ _
  · intro i
    rw [batchEndpoint, List.getElem?_map]
  · intro s
    cases s <;> rfl
  · intro b
    cases b <;> rfl
  · with_unfolding_all rfl

/-- C9: the introspection endpoint enumerates the six registered functions
exactly once, and renders a field as `required` exactly when the registered
schema neither marks it optional nor gives it a default: the defaulted
`limit` fields and the optional `metricNames`, `startYear`, `endYear` are not
required, every other declared field is. -/
theorem spec_c9 :
    (functionsEndpoint scivalData).map (fun p => p.1) =
      ["getEntity", "searchEntities", "getMetrics", "compareEntities", "getTrend",
       "getTopEntities"] ∧
    ((functionsEndpoint scivalData).map (fun p => p.1)).Nodup ∧
    (queryFunctionsOn scivalData).map (fun p => requiredOf (zodToJsonSchema p.2.schema)) =
      (queryFunctionsOn scivalData).map (fun p => claimRequiredKeys p.2.schema) ∧
    requiredOf (zodToJsonSchema getEntitySchema) = ["entityType", "entityId"] ∧
    requiredOf (zodToJsonSchema searchEntitiesSchema) = ["entityType", "query"] ∧
    requiredOf (zodToJsonSchema getMetricsSchema) = ["entityType", "entityId"] ∧
    requiredOf (zodToJsonSchema compareEntitiesSchema) =
      ["entityType", "entityIdA", "entityIdB", "metric"] ∧
    requiredOf (zodToJsonSchema getTrendSchema) = ["entityId", "metric"] ∧
    requiredOf (zodToJsonSchema getTopEntitiesSchema) = ["entityType", "metric"] := by
  exact ⟨rfl, by decide, rfl, rfl, rfl, rfl, rfl, rfl, rfl⟩
